import Mathlib

/-!
Verification of the configurator package (a struct-tag-driven configuration
loader built on top of the viper key-value store).

The development shallowly embeds the resolution engine of the package:
the annotation scanner (`parseValuesForTag` and its four wrappers), the
source binder (`populateDefaults`, `bindEnvValues`, `bindFlagValues`,
`bindConfigFileValues`), the populator (`populateConfigStruct`,
`populateStructField`, `isZeroOfUnderlyingType`) and the facade
(`Config.Load`, `canLoad`).

Go machine values are modelled as an inductive type `GoVal`; machine
integers are `Int`/`Nat` with explicit two's-complement truncation where
the reflect layer truncates (`reflect.Value.SetInt` stores `int8(x)` and
so on); floating-point fields are modelled with exact rationals, so
binary rounding of `float32`/`float64` is outside the model.  The
`strconv` parsing functions used by the source are embedded as
`parseBool`, `parseInt64`, `parseUint64` and `parseFloat` (the finite
decimal fragment; hexadecimal floats, infinities and NaN are not
modelled).  The external source providers (environment, command line,
configuration file) are a `World` record, and the viper store the engine
builds is resolved by `viperGet` following the provider contract the
design states: changed flags over environment over file over defaults,
with no overrides ever issued through the store itself.
-/

/-- Go reflection kinds relevant to the loader: the kinds the populator's
switch handles, the integer kinds it omits, and the aggregate kinds it
never matches. -/
inductive GoKind where
  | kString | kBool
  | kFloat32 | kFloat64
  | kInt | kInt8 | kInt16 | kInt32 | kInt64
  | kUint | kUint8 | kUint16 | kUint32 | kUint64
  | kStruct | kSlice | kMap | kPtr
deriving DecidableEq

/-- A Go field value.  Numeric payloads are unbounded `Int`/`Nat`; the
population step applies the same truncation `reflect.Value.SetInt` /
`SetUint` apply, so every value that appears in a loaded struct is in
range for its width.  Floating-point payloads are exact rationals.
`vOther` stands for a value of any kind the populator has no case for
(struct, slice, map, pointer). -/
inductive GoVal where
  | vString (s : String)
  | vBool (b : Bool)
  | vFloat32 (q : ℚ)
  | vFloat64 (q : ℚ)
  | vInt (n : Int)
  | vInt8 (n : Int)
  | vInt16 (n : Int)
  | vInt32 (n : Int)
  | vInt64 (n : Int)
  | vUint (n : Nat)
  | vUint8 (n : Nat)
  | vUint16 (n : Nat)
  | vUint32 (n : Nat)
  | vUint64 (n : Nat)
  | vOther (k : GoKind)
deriving DecidableEq

/-- Static kind of a value, standing in for `reflect.StructField.Type`
(in the embedding a field's value always inhabits its declared type). -/
def GoVal.kind : GoVal → GoKind
  | .vString _ => .kString
  | .vBool _ => .kBool
  | .vFloat32 _ => .kFloat32
  | .vFloat64 _ => .kFloat64
  | .vInt _ => .kInt
  | .vInt8 _ => .kInt8
  | .vInt16 _ => .kInt16
  | .vInt32 _ => .kInt32
  | .vInt64 _ => .kInt64
  | .vUint _ => .kUint
  | .vUint8 _ => .kUint8
  | .vUint16 _ => .kUint16
  | .vUint32 _ => .kUint32
  | .vUint64 _ => .kUint64
  | .vOther k => k

/-- The four struct-tag names the scanner recognises. -/
inductive TagName where
  | tagEnv | tagFlag | tagFile | tagDefault
deriving DecidableEq

/-- Metadata of one struct field: its name, whether `ast.IsExported`
holds of the name, and the raw text of each of the four tags
(`reflect.StructTag.Get` returns the empty string for an absent tag). -/
structure FieldSpec where
  name : String
  exported : Bool
  envTag : String
  flagTag : String
  fileTag : String
  defaultTag : String
deriving DecidableEq

/-- Embedding of `tag.Get(tagName)` over the four recognised tags. -/
def FieldSpec.tagGet (f : FieldSpec) : TagName → String
  | .tagEnv => f.envTag
  | .tagFlag => f.flagTag
  | .tagFile => f.fileTag
  | .tagDefault => f.defaultTag

/-- A struct value: fields with their metadata, in declaration order. -/
abbrev StructVal := List (FieldSpec × GoVal)

/-- Errors the loader can return.  `convErr` stands for the
`fmt.Errorf` coercion failures of `populateStructField`, carrying the
target kind named in the message, the offending text and the field
name. -/
inductive ConvTarget where
  | toBool | toFloat | toInt | toUint
deriving DecidableEq

inductive CfgError where
  | notStructPointer
  | notStruct
  | convErr (target : ConvTarget) (value : String) (field : String)
deriving DecidableEq

/-! ## strconv models

Embeddings of the Go standard-library parsing functions the populator
calls.  `strconv.ParseInt(s, 10, 64)` accepts an optional sign followed
by decimal digits and rejects values outside the 64-bit signed range;
`strconv.ParseUint(s, 10, 64)` permits no sign prefix;
`strconv.ParseBool` accepts exactly the twelve listed literals;
`strconv.ParseFloat(s, 64)` is modelled on its finite decimal grammar
with the exact rational denotation. -/

/-- Base-10 value of a digit character list. -/
def digitVal (cs : List Char) : Nat :=
  cs.foldl (fun a c => a * 10 + (c.toNat - 48)) 0

/-- Value of a non-empty all-digit character list, `none` otherwise. -/
def digitsToNat? (cs : List Char) : Option Nat :=
  if cs ≠ [] ∧ cs.all Char.isDigit then some (digitVal cs) else none

/-- Model of `strconv.ParseBool`. -/
def parseBool (s : String) : Option Bool :=
  if s = "1" ∨ s = "t" ∨ s = "T" ∨ s = "TRUE" ∨ s = "true" ∨ s = "True" then
    some true
  else if s = "0" ∨ s = "f" ∨ s = "F" ∨ s = "FALSE" ∨ s = "false" ∨ s = "False" then
    some false
  else
    none

/-- Optional leading sign of a numeric literal: whether it is negative,
and the remaining characters. -/
def parseSign (cs : List Char) : Bool × List Char :=
  match cs with
  | [] => (false, [])
  | c :: rest =>
    if c = '-' then (true, rest)
    else if c = '+' then (false, rest)
    else (false, c :: rest)

/-- Model of `strconv.ParseInt(s, 10, 64)`: optional sign, decimal
digits, 64-bit signed range. -/
def parseInt64 (s : String) : Option Int :=
  match digitsToNat? (parseSign s.data).2 with
  | none => none
  | some n =>
    if (parseSign s.data).1 then
      if n ≤ 2 ^ 63 then some (-(n : Int)) else none
    else
      if n ≤ 2 ^ 63 - 1 then some (n : Int) else none

/-- Model of `strconv.ParseUint(s, 10, 64)`: no sign prefix permitted,
decimal digits, 64-bit unsigned range. -/
def parseUint64 (s : String) : Option Nat :=
  match digitsToNat? s.data with
  | none => none
  | some n => if n ≤ 2 ^ 64 - 1 then some n else none

/-- Signed decimal exponent part of a floating literal. -/
def parseSignedDigits (cs : List Char) : Option Int :=
  match digitsToNat? (parseSign cs).2 with
  | none => none
  | some n => some (if (parseSign cs).1 then -(n : Int) else (n : Int))

/-- Mantissa of a decimal floating literal: `digits`, `digits.digits`,
`digits.` or `.digits`.  Returns the digit string's value together with
the number of fractional digits (the power-of-ten scale). -/
def parseMantissa (cs : List Char) : Option (Nat × Nat) :=
  let ip := cs.takeWhile (fun c => c ≠ '.')
  let rest := cs.dropWhile (fun c => c ≠ '.')
  match rest with
  | [] =>
    match digitsToNat? ip with
    | some n => some (n, 0)
    | none => none
  | _ :: fp =>
    if ip.all Char.isDigit ∧ fp.all Char.isDigit ∧ (ip ≠ [] ∨ fp ≠ []) then
      some (digitVal ip * 10 ^ fp.length + digitVal fp, fp.length)
    else
      none

/-- Exact rational denotation of a parsed decimal literal: sign,
mantissa digits, fractional scale, exponent. -/
def decimalValue (neg : Bool) (mant : Nat) (scale : Nat) (e : Int) : ℚ :=
  (if neg then -(mant : ℚ) else (mant : ℚ)) / (10 : ℚ) ^ scale * (10 : ℚ) ^ (e : ℤ)

/-- Exponent clause of a floating literal: absent means scale by
`10 ^ 0`, otherwise the marker must be followed by signed digits. -/
def parseExp (cs : List Char) : Option Int :=
  match cs with
  | [] => some 0
  | _ :: ecs => parseSignedDigits ecs

/-- Model of the finite decimal fragment of `strconv.ParseFloat(s, 64)`:
optional sign, mantissa, optional exponent, with exact rational value.
(An empty or sign-only input fails through the empty mantissa.) -/
def parseFloat (s : String) : Option ℚ :=
  match parseMantissa ((parseSign s.data).2.takeWhile (fun ch => ch ≠ 'e' ∧ ch ≠ 'E')),
      parseExp ((parseSign s.data).2.dropWhile (fun ch => ch ≠ 'e' ∧ ch ≠ 'E')) with
  | some m, some e => some (decimalValue (parseSign s.data).1 m.1 m.2 e)
  | _, _ => none

/-! ## Truncation applied by the reflect setters

`reflect.Value.SetInt` stores `int8(x)`, `int32(x)` … into the field,
i.e. two's-complement truncation to the field's width; `SetUint` stores
`uint8(x)` and so on.  `kInt`/`kUint` are modelled at 64 bits (the
platform word size of the source's test environment). -/

def truncInt (w : Nat) (n : Int) : Int :=
  (n + 2 ^ (w - 1)) % 2 ^ w - 2 ^ (w - 1)

def truncUint (w : Nat) (n : Nat) : Nat :=
  n % 2 ^ w

/-! ## The populator -/

/-- Embedding of `isZeroOfUnderlyingType`: comparison with the zero
value of the dynamic type.  The populator only ever consults it for the
string, bool, float, int and uint kinds its switch handles; the
`vOther` arm is unreachable from `populateStructField`. -/
def isZeroOfUnderlyingType : GoVal → Bool
  | .vString s => s = ""
  | .vBool b => b = false
  | .vFloat32 q => q = 0
  | .vFloat64 q => q = 0
  | .vInt n => n = 0
  | .vInt8 n => n = 0
  | .vInt16 n => n = 0
  | .vInt32 n => n = 0
  | .vInt64 n => n = 0
  | .vUint n => n = 0
  | .vUint8 n => n = 0
  | .vUint16 n => n = 0
  | .vUint32 n => n = 0
  | .vUint64 n => n = 0
  | .vOther _ => true

/-- Embedding of `populateStructField`: switch on the field's kind,
parse the resolved text, and assign only when the current value is the
zero value of its type.  The switch lists `String`, `Bool`,
`Float32/64`, `Int, Int8, Int32, Int64` and `Uint, Uint8, Uint32,
Uint64`; `Int16`, `Uint16` and every aggregate kind have no case and no
default, so they fall through untouched with a nil error. -/
def populateStructField (field : FieldSpec) (fieldValue : GoVal) (value : String) :
    Except CfgError GoVal :=
  match fieldValue with
  | .vString s =>
    .ok (if isZeroOfUnderlyingType (.vString s) then .vString value else .vString s)
  | .vBool b =>
    match parseBool value with
    | none => .error (.convErr .toBool value field.name)
    | some bv =>
      .ok (if isZeroOfUnderlyingType (.vBool b) then .vBool bv else .vBool b)
  | .vFloat32 q =>
    match parseFloat value with
    | none => .error (.convErr .toFloat value field.name)
    | some fv =>
      .ok (if isZeroOfUnderlyingType (.vFloat32 q) then .vFloat32 fv else .vFloat32 q)
  | .vFloat64 q =>
    match parseFloat value with
    | none => .error (.convErr .toFloat value field.name)
    | some fv =>
      .ok (if isZeroOfUnderlyingType (.vFloat64 q) then .vFloat64 fv else .vFloat64 q)
  | .vInt n =>
    match parseInt64 value with
    | none => .error (.convErr .toInt value field.name)
    | some iv =>
      .ok (if isZeroOfUnderlyingType (.vInt n) then .vInt (truncInt 64 iv) else .vInt n)
  | .vInt8 n =>
    match parseInt64 value with
    | none => .error (.convErr .toInt value field.name)
    | some iv =>
      .ok (if isZeroOfUnderlyingType (.vInt8 n) then .vInt8 (truncInt 8 iv) else .vInt8 n)
  | .vInt16 n => .ok (.vInt16 n)
  | .vInt32 n =>
    match parseInt64 value with
    | none => .error (.convErr .toInt value field.name)
    | some iv =>
      .ok (if isZeroOfUnderlyingType (.vInt32 n) then .vInt32 (truncInt 32 iv) else .vInt32 n)
  | .vInt64 n =>
    match parseInt64 value with
    | none => .error (.convErr .toInt value field.name)
    | some iv =>
      .ok (if isZeroOfUnderlyingType (.vInt64 n) then .vInt64 (truncInt 64 iv) else .vInt64 n)
  | .vUint n =>
    match parseUint64 value with
    | none => .error (.convErr .toUint value field.name)
    | some uv =>
      .ok (if isZeroOfUnderlyingType (.vUint n) then .vUint (truncUint 64 uv) else .vUint n)
  | .vUint8 n =>
    match parseUint64 value with
    | none => .error (.convErr .toUint value field.name)
    | some uv =>
      .ok (if isZeroOfUnderlyingType (.vUint8 n) then .vUint8 (truncUint 8 uv) else .vUint8 n)
  | .vUint16 n => .ok (.vUint16 n)
  | .vUint32 n =>
    match parseUint64 value with
    | none => .error (.convErr .toUint value field.name)
    | some uv =>
      .ok (if isZeroOfUnderlyingType (.vUint32 n) then .vUint32 (truncUint 32 uv) else .vUint32 n)
  | .vUint64 n =>
    match parseUint64 value with
    | none => .error (.convErr .toUint value field.name)
    | some uv =>
      .ok (if isZeroOfUnderlyingType (.vUint64 n) then .vUint64 (truncUint 64 uv) else .vUint64 n)
  | .vOther k => .ok (.vOther k)

/-! ## Annotation scanning -/

/-- Source record `parsedValue`: the tag's text and the field's static
type. -/
structure parsedValue where
  tagValue : String
  fieldType : GoKind
deriving DecidableEq

/-- Embedding of `parseValuesForTag`: walk the struct's fields in
declaration order and keep, keyed by field name, every field whose tag
for `tagName` is non-empty and whose name is exported.  (Go collects
these into a map; since field names are unique within a struct, an
association list in declaration order carries the same information.) -/
def parseValuesForTag (structRef : StructVal) (tagName : TagName) :
    List (String × parsedValue) :=
  match structRef with
  | [] => []
  | (f, v) :: rest =>
    if f.tagGet tagName ≠ "" ∧ f.exported = true then
      (f.name, ⟨f.tagGet tagName, v.kind⟩) :: parseValuesForTag rest tagName
    else
      parseValuesForTag rest tagName

def parseDefaultValues (structRef : StructVal) : List (String × parsedValue) :=
  parseValuesForTag structRef .tagDefault

def parseEnvValues (structRef : StructVal) : List (String × parsedValue) :=
  parseValuesForTag structRef .tagEnv

def parseFlagValues (structRef : StructVal) : List (String × parsedValue) :=
  parseValuesForTag structRef .tagFlag

def parseConfigFileValues (structRef : StructVal) : List (String × parsedValue) :=
  parseValuesForTag structRef .tagFile

/-! ## Source binding and the provider model -/

/-- The primitive flag types pflag offers for declaration. -/
inductive FlagType where
  | fString | fBool | fFloat64 | fInt64
deriving DecidableEq

/-- A command-line flag as declared with the flag provider: its name,
its declared type and its declared default text. -/
structure FlagDecl where
  name : String
  type : FlagType
  defValue : String
deriving DecidableEq

/-- Embedding of `bindFlagValues`: for every flag-tagged field the
source calls `pflag.String(v.tagValue, "", "")` — a string-typed flag
with empty default, whatever the field's static type — and then binds
the looked-up flag to the field name with `viper.BindPFlag`.  Returns
the declarations (the flag set) and the field-to-flag bindings. -/
def bindFlagValues (flagValues : List (String × parsedValue)) :
    List FlagDecl × List (String × String) :=
  match flagValues with
  | [] => ([], [])
  | (k, v) :: rest =>
    let r := bindFlagValues rest
    (⟨v.tagValue, .fString, ""⟩ :: r.1, (k, v.tagValue) :: r.2)

/-- State of the viper store as the binder assembles it: the file
provider's configured name and search paths, the registered defaults,
the environment-variable bindings, the declared flags and their
field bindings, and the field-name-to-file-key aliases. -/
structure ViperState where
  configName : String
  configPaths : List String
  defaults : List (String × String)
  envBindings : List (String × String)
  flagDecls : List FlagDecl
  flagBindings : List (String × String)
  aliases : List (String × String)

/-- Fresh store, as produced by `viper.New()`. -/
def viperNew : ViperState := ⟨"", [], [], [], [], [], []⟩

/-- Embedding of `populateDefaults`: `viper.SetDefault(k, tagValue)`
for every default-tagged field. -/
def populateDefaults (st : ViperState) (defaultValues : List (String × parsedValue)) :
    ViperState :=
  { st with defaults := defaultValues.map (fun kv => (kv.1, kv.2.tagValue)) }

/-- Embedding of `bindEnvValues`: `viper.BindEnv(k, tagValue)` for
every env-tagged field. -/
def bindEnvValues (st : ViperState) (envValues : List (String × parsedValue)) :
    ViperState :=
  { st with envBindings := envValues.map (fun kv => (kv.1, kv.2.tagValue)) }

/-- The flag declarations and bindings of `bindFlagValues`, recorded in
the store (`viper.BindPFlag` per entry). -/
def bindFlagValuesState (st : ViperState) (flagValues : List (String × parsedValue)) :
    ViperState :=
  let r := bindFlagValues flagValues
  { st with flagDecls := r.1, flagBindings := r.2 }

/-- Embedding of `bindConfigFileValues`: `viper.SetConfigName`,
`viper.AddConfigPath` for each search path, then
`viper.RegisterAlias(k, tagValue)` for every file-tagged field. -/
def bindConfigFileValues (fileName : String) (filePaths : List String)
    (st : ViperState) (configValues : List (String × parsedValue)) : ViperState :=
  { st with
    configName := fileName
    configPaths := filePaths
    aliases := configValues.map (fun kv => (kv.1, kv.2.tagValue)) }

/-- The ambient sources outside the program: the process environment,
the command-line flags the user actually set (pflag's `Changed` flags),
and the configuration file — `none` when no file is found on the search
paths, otherwise its parsed key-to-text mapping. -/
structure World where
  env : List (String × String)
  changedFlags : List (String × String)
  configFile : Option (List (String × String))

/-- Missing-file condition reported by `viper.ReadInConfig`. -/
inductive FileErr where
  | configFileNotFound
deriving DecidableEq

/-- Embedding of `viper.ReadInConfig`: reports whether a configuration
file was found and read, plus the missing-file condition when not.
File discovery itself (walking `configName`/`configPaths`) is the file
provider's, external to the engine; the `World` says whether it
succeeds. -/
def readInConfig (st : ViperState) (w : World) : Bool × Option FileErr :=
  match st, w.configFile with
  | _, some _ => (true, none)
  | _, none => (false, some .configFileNotFound)

/-- File key a field name resolves to: its registered alias when one
exists, else the name itself. -/
def aliasTarget (st : ViperState) (key : String) : String :=
  match st.aliases.lookup key with
  | some fileKey => fileKey
  | none => key

/-- Provider resolution (`viper.Get`).  The store is an external
collaborator; this follows the provider contract the design states for
`Resolve`: the precedence-merged textual value, considering
command-line flags the user set, then bound environment variables, then
the configuration file (when one was read), then registered defaults.
The store's own override tier (`viper.Set`) is never fed by the engine,
so it does not appear; the engine realises the override tier through
the zero-value rule during population. -/
def viperGet (st : ViperState) (w : World) (fileRead : Bool) (key : String) :
    Option String :=
  (match st.flagBindings.lookup key with
   | some flagName => w.changedFlags.lookup flagName
   | none => none) <|>
  (match st.envBindings.lookup key with
   | some envName => w.env.lookup envName
   | none => none) <|>
  (if fileRead then ((w.configFile.getD []).lookup (aliasTarget st key)) else none) <|>
  st.defaults.lookup key

/-! ## Population and the facade -/

/-- Field-by-field population loop of `populateConfigStruct`: walk the
fields in declaration order, resolve each field name through the store,
skip fields with no resolved value, and hand resolved text to
`populateStructField`.  A populate error returns immediately, leaving
the failing field and every later field at its incoming value. -/
def populateFields (resolve : String → Option String) (fields : StructVal) :
    StructVal × Option CfgError :=
  match fields with
  | [] => ([], none)
  | (f, v) :: rest =>
    match resolve f.name with
    | none =>
      let r := populateFields resolve rest
      ((f, v) :: r.1, r.2)
    | some s =>
      match populateStructField f v s with
      | .error e => ((f, v) :: rest, some e)
      | .ok v' =>
        let r := populateFields resolve rest
        ((f, v') :: r.1, r.2)

/-- Embedding of `populateConfigStruct`: call `viper.ReadInConfig`,
discarding its result (the source ignores the returned error), then run
the population loop against `viper.Get`. -/
def populateConfigStruct (st : ViperState) (w : World) (structRef : StructVal) :
    StructVal × Option CfgError :=
  let fileRead := (readInConfig st w).1
  populateFields (viperGet st w fileRead) structRef

/-- Embedding of `parseStructConfigValues`: scan the four tag kinds,
bind defaults, environment, flags and file keys in that order, then
populate the struct from the store. -/
def parseStructConfigValues (fileName : String) (filePaths : List String)
    (w : World) (structRef : StructVal) : StructVal × Option CfgError :=
  let defaultValues := parseDefaultValues structRef
  let envValues := parseEnvValues structRef
  let flagValues := parseFlagValues structRef
  let configValues := parseConfigFileValues structRef
  let st := viperNew
  let st := populateDefaults st defaultValues
  let st := bindEnvValues st envValues
  let st := bindFlagValuesState st flagValues
  let st := bindConfigFileValues fileName filePaths st configValues
  populateConfigStruct st w structRef

/-- Reflection view of the argument passed to `Load`.  `rPtr none` is a
typed nil pointer: its `Elem()` is the invalid zero `reflect.Value`,
whose kind is not `Struct`. -/
inductive RElem where
  | rStruct (fields : StructVal)
  | rOther (k : GoKind)

inductive RVal where
  | rPtr (elem : Option RElem)
  | rNonPtr (k : GoKind)

/-- The loader's configuration record (source `Config`): the file base
name and the search paths. -/
structure Config where
  FileName : String
  FilePaths : List String

/-- Embedding of `canLoad`: the argument must be a pointer whose
element is a struct. -/
def canLoad (structRef : RVal) : Option CfgError :=
  match structRef with
  | .rNonPtr _ => some .notStructPointer
  | .rPtr none => some .notStruct
  | .rPtr (some (.rOther _)) => some .notStruct
  | .rPtr (some (.rStruct _)) => none

/-- Embedding of `Config.Load`: validate the reference with `canLoad`,
returning the argument untouched on failure, else dereference and run
`parseStructConfigValues`.  Returns the (possibly partially) populated
referent together with the first error. -/
def Config.Load (c : Config) (w : World) (structRef : RVal) : RVal × Option CfgError :=
  match canLoad structRef with
  | some e => (structRef, some e)
  | none =>
    match structRef with
    | .rPtr (some (.rStruct fields)) =>
      let r := parseStructConfigValues c.FileName c.FilePaths w fields
      (.rPtr (some (.rStruct r.1)), r.2)
    | _ => (structRef, none)

/-- The process-wide default loader installed by `init()`. -/
def defaultLoader : Config := ⟨"config", ["."]⟩

/-- The free-function `Load`, delegating to the default loader. -/
def Load (w : World) (structRef : RVal) : RVal × Option CfgError :=
  defaultLoader.Load w structRef

example : parseBool "true" = some true := by decide
example : parseBool "yes" = none := by decide
example : parseInt64 "-42" = some (-42) := by decide
example : parseInt64 "4a" = none := by decide
example : parseUint64 "-1" = none := by decide
example : parseFloat "3.14159" = some (decimalValue false 314159 5 0) := rfl
example : parseFloat "1.5" = some (decimalValue false 15 1 0) := rfl
example : decimalValue false 15 1 0 = 3 / 2 := by norm_num [decimalValue]
example : parseFloat "badvalue" = none := by decide
example : truncInt 8 200 = -56 := by decide

/-- The state the binder leaves the store in for a given struct: the
chain of `populateDefaults`, `bindEnvValues`, `bindFlagValuesState`,
`bindConfigFileValues` that `parseStructConfigValues` performs. -/
def loadViperState (fileName : String) (filePaths : List String)
    (structRef : StructVal) : ViperState :=
  bindConfigFileValues fileName filePaths
    (bindFlagValuesState
      (bindEnvValues
        (populateDefaults viperNew (parseDefaultValues structRef))
        (parseEnvValues structRef))
      (parseFlagValues structRef))
    (parseConfigFileValues structRef)

/-- The resolver a `Load` call queries: the bound store read through
`viperGet`, with the file tier active exactly when `ReadInConfig` found
a file. -/
def loadResolve (fileName : String) (filePaths : List String) (w : World)
    (structRef : StructVal) : String → Option String :=
  viperGet (loadViperState fileName filePaths structRef) w
    (readInConfig (loadViperState fileName filePaths structRef) w).1

theorem parseStructConfigValues_eq (fileName : String) (filePaths : List String)
    (w : World) (structRef : StructVal) :
    parseStructConfigValues fileName filePaths w structRef =
      populateFields (loadResolve fileName filePaths w structRef) structRef := rfl

/-- A populate step that succeeds on a non-zero field leaves the field
value unchanged: assignment is gated on the zero-value check in every
arm of the switch. -/
theorem populateStructField_ok_nonzero (f : FieldSpec) (v : GoVal) (s : String)
    (v' : GoVal) (hz : isZeroOfUnderlyingType v = false)
    (h : populateStructField f v s = .ok v') : v' = v := by
  cases v <;> simp only [populateStructField] at h <;> (try split at h) <;>
    simp_all

/-- A populate step can only fail with a coercion error, carrying the
resolved text and the field's name. -/
theorem populateStructField_error_shape (f : FieldSpec) (v : GoVal) (s : String)
    (e : CfgError) (h : populateStructField f v s = .error e) :
    ∃ tgt, e = .convErr tgt s f.name := by
  cases v <;> simp only [populateStructField] at h <;> (try split at h) <;>
    first
      | (injection h with h2; exact ⟨_, h2.symm⟩)
      | exact absurd h (by simp)

/-- The population loop keeps the field count. -/
theorem populateFields_length (resolve : String → Option String) (fields : StructVal) :
    (populateFields resolve fields).1.length = fields.length := by
  induction fields with
  | nil => rfl
  | cons fv rest ih =>
    obtain ⟨f, v⟩ := fv
    simp only [populateFields]
    cases hr : resolve f.name with
    | none => simpa using ih
    | some s =>
      cases hp : populateStructField f v s with
      | error e => simp [hp]
      | ok v' => simpa [hp] using ih

/-- The population loop never modifies a field holding a non-zero
value, whatever the resolver supplies and wherever the loop stops. -/
theorem populateFields_preserves_nonzero (resolve : String → Option String)
    (fields : StructVal) (i : Nat) (f : FieldSpec) (v : GoVal)
    (hget : fields.get? i = some (f, v)) (hz : isZeroOfUnderlyingType v = false) :
    (populateFields resolve fields).1.get? i = some (f, v) := by
  induction fields generalizing i with
  | nil => simp at hget
  | cons fv rest ih =>
    obtain ⟨f0, v0⟩ := fv
    simp only [populateFields]
    cases i with
    | zero =>
      simp only [List.get?] at hget
      obtain ⟨hf, hv⟩ : f0 = f ∧ v0 = v := by
        constructor <;> (cases hget; rfl)
      subst hf; subst hv
      cases hr : resolve f0.name with
      | none => rfl
      | some s =>
        cases hp : populateStructField f0 v0 s with
        | error e => simp [hp]
        | ok v' =>
          have := populateStructField_ok_nonzero f0 v0 s v' hz hp
          subst this; simp [hp]
    | succ n =>
      simp only [List.get?] at hget
      cases hr : resolve f0.name with
      | none => simpa using ih n hget
      | some s =>
        cases hp : populateStructField f0 v0 s with
        | error e => simpa [hp] using hget
        | ok v' => simpa [hp] using ih n hget

/-- Characterisation of a failing population pass: some field's
resolved text fails its populate step with exactly the returned error,
and that field and every later field keep their incoming values. -/
theorem populateFields_error_spec (resolve : String → Option String)
    (fields fields' : StructVal) (e : CfgError)
    (h : populateFields resolve fields = (fields', some e)) :
    ∃ i f v s, fields.get? i = some (f, v) ∧ resolve f.name = some s ∧
      populateStructField f v s = .error e ∧
      ∀ j, i ≤ j → fields'.get? j = fields.get? j := by
  induction fields generalizing fields' with
  | nil => simp [populateFields] at h
  | cons fv rest ih =>
    obtain ⟨f0, v0⟩ := fv
    simp only [populateFields] at h
    split at h
    · rename_i hr
      have h1 : fields' = (f0, v0) :: (populateFields resolve rest).1 :=
        (congrArg Prod.fst h).symm
      have h2 : (populateFields resolve rest).2 = some e := congrArg Prod.snd h
      obtain ⟨i, f, v, s, hg, hres, herr, hkeep⟩ :=
        ih (populateFields resolve rest).1 (by rw [← h2])
      refine ⟨i + 1, f, v, s, by simpa using hg, hres, herr, ?_⟩
      intro j hij
      cases j with
      | zero => omega
      | succ m => rw [h1]; simpa using hkeep m (by omega)
    · rename_i s hr
      split at h
      · rename_i e0 hp
        have h1 : fields' = (f0, v0) :: rest := (congrArg Prod.fst h).symm
        have h2 : e0 = e := by
          have := congrArg Prod.snd h
          simpa using this
        subst h2
        exact ⟨0, f0, v0, s, rfl, hr, hp, fun j _ => by rw [h1]⟩
      · rename_i v' hp
        have h1 : fields' = (f0, v') :: (populateFields resolve rest).1 :=
          (congrArg Prod.fst h).symm
        have h2 : (populateFields resolve rest).2 = some e := congrArg Prod.snd h
        obtain ⟨i, f, v, s1, hg, hres, herr, hkeep⟩ :=
          ih (populateFields resolve rest).1 (by rw [← h2])
        refine ⟨i + 1, f, v, s1, by simpa using hg, hres, herr, ?_⟩
        intro j hij
        cases j with
        | zero => omega
        | succ m => rw [h1]; simpa using hkeep m (by omega)

/-- Two pointwise-equal resolvers populate identically. -/
theorem populateFields_congr (r1 r2 : String → Option String)
    (h : ∀ k, r1 k = r2 k) (fields : StructVal) :
    populateFields r1 fields = populateFields r2 fields := by
  induction fields with
  | nil => rfl
  | cons fv rest ih =>
    obtain ⟨f, v⟩ := fv
    simp only [populateFields, h, ih]

/-- Range of `strconv.ParseInt(s, 10, 64)` results. -/
theorem parseInt64_range (s : String) (n : Int) (h : parseInt64 s = some n) :
    -(2 ^ 63) ≤ n ∧ n < 2 ^ 63 := by
  unfold parseInt64 at h
  split at h
  · exact absurd h (by simp)
  · rename_i n0 hd
    split at h
    · split at h
      · rename_i hle
        obtain rfl : n = -(n0 : Int) := by cases h; rfl
        constructor
        · exact neg_le_neg (by exact_mod_cast hle)
        · exact lt_of_le_of_lt (neg_nonpos.mpr (Int.natCast_nonneg n0)) (by positivity)
      · exact absurd h (by simp)
    · split at h
      · rename_i hle
        obtain rfl : n = (n0 : Int) := by cases h; rfl
        constructor
        · exact le_trans (by norm_num) (Int.natCast_nonneg n0)
        · exact_mod_cast Nat.lt_of_le_of_lt hle (by norm_num)
      · exact absurd h (by simp)

/-- Range of `strconv.ParseUint(s, 10, 64)` results. -/
theorem parseUint64_range (s : String) (n : Nat) (h : parseUint64 s = some n) :
    n < 2 ^ 64 := by
  unfold parseUint64 at h
  split at h
  · exact absurd h (by simp)
  · split at h
    · rename_i hle
      injection h with h2
      subst h2
      have hx : (2 : ℕ) ^ 64 - 1 < 2 ^ 64 := by norm_num
      omega
    · exact absurd h (by simp)

/-- Truncation is the identity on values inside the width's range. -/
theorem truncInt_eq_self (w : Nat) (n : Int) (hw : w ≠ 0)
    (h1 : -(2 ^ (w - 1)) ≤ n) (h2 : n < 2 ^ (w - 1)) : truncInt w n = n := by
  unfold truncInt
  have hpow : (2 : Int) ^ w = 2 ^ (w - 1) * 2 := by
    rw [← pow_succ]
    congr 1
    omega
  have ha : (0 : Int) ≤ n + 2 ^ (w - 1) := by omega
  have hb : n + 2 ^ (w - 1) < 2 ^ w := by omega
  rw [Int.emod_eq_of_lt ha hb]
  omega

theorem truncUint_eq_self (w : Nat) (n : Nat) (h : n < 2 ^ w) : truncUint w n = n :=
  Nat.mod_eq_of_lt h


/-! ## Claim theorems -/

/-- Concrete fields shared by the concrete evaluations below. -/
def sampleField : FieldSpec := ⟨"Sample", true, "", "", "", ""⟩

def enabledField : FieldSpec := ⟨"Enabled", true, "", "enabled", "", ""⟩

def nestedField : FieldSpec := ⟨"Nested", true, "", "", "", "x"⟩

/-- C7: calling Load with a non-reference argument returns the
not-a-struct-pointer error, and calling it with a reference to a
non-record value returns the not-a-struct error; in both cases the
argument comes back untouched — validation precedes all scanning,
binding and population work. -/
theorem load_validates_reference :
    (∀ (c : Config) (w : World) (k : GoKind),
      Config.Load c w (.rNonPtr k) = (.rNonPtr k, some .notStructPointer)) ∧
    (∀ (c : Config) (w : World) (k : GoKind),
      Config.Load c w (.rPtr (some (.rOther k))) =
        (.rPtr (some (.rOther k)), some .notStruct)) :=
  ⟨fun _ _ _ => rfl, fun _ _ _ => rfl⟩

/-- C10: a typed nil struct pointer passes the pointer-kind check, its
dereference has invalid (non-struct) kind, and Load returns the
not-a-struct error with nothing populated. -/
theorem nil_pointer_load_not_struct :
    ∀ (c : Config) (w : World),
      Config.Load c w (.rPtr none) = (.rPtr none, some .notStruct) :=
  fun _ _ => rfl

/-- C3 counterexample: a struct-kind field whose default tag resolves
to the value `x` — the provider resolves a value for it, yet Load
returns no error at all (the populator's switch has no default arm and
the source defines no unsupported-field-kind error). -/
theorem unsupported_kind_no_error :
    loadResolve "config" ["."] ⟨[], [], none⟩
        [(nestedField, .vOther .kStruct)] "Nested" = some "x" ∧
    Config.Load defaultLoader ⟨[], [], none⟩
        (.rPtr (some (.rStruct [(nestedField, .vOther .kStruct)]))) =
      (.rPtr (some (.rStruct [(nestedField, .vOther .kStruct)])), none) :=
  ⟨rfl, rfl⟩

/-- C3 (amended): for every field of record, sequence, mapping or
pointer kind, a provider-resolved value is silently discarded — the
populate step parses nothing, assigns nothing and returns no error, and
a Load over such a field cannot fail on its account. -/
theorem unsupported_kind_silently_skipped :
    (∀ (f : FieldSpec) (k : GoKind) (s : String),
      populateStructField f (.vOther k) s = .ok (.vOther k)) ∧
    (∀ (c : Config) (w : World) (f : FieldSpec) (k : GoKind),
      Config.Load c w (.rPtr (some (.rStruct [(f, .vOther k)]))) =
        (.rPtr (some (.rStruct [(f, .vOther k)])), none)) := by
  constructor
  · intro f k s; rfl
  · intro c w f k
    simp only [Config.Load, canLoad, parseStructConfigValues_eq, populateFields]
    cases hr : loadResolve c.FileName c.FilePaths w [(f, .vOther k)] f.name with
    | none => rfl
    | some s => rfl

/-- Claim-side reading of C2's typing requirement: the flag type the
specification prescribes for a field of the given static kind
(string, bool, float, integer). -/
def flagTypeForKind : GoKind → Option FlagType
  | .kString => some .fString
  | .kBool => some .fBool
  | .kFloat32 => some .fFloat64
  | .kFloat64 => some .fFloat64
  | .kInt => some .fInt64
  | .kInt8 => some .fInt64
  | .kInt16 => some .fInt64
  | .kInt32 => some .fInt64
  | .kInt64 => some .fInt64
  | .kUint => some .fInt64
  | .kUint8 => some .fInt64
  | .kUint16 => some .fInt64
  | .kUint32 => some .fInt64
  | .kUint64 => some .fInt64
  | _ => none

/-- C2 counterexample: the bool-kind field `Enabled` carrying flag tag
`enabled` has a string-typed flag declared for it (the binder calls the
string declaration for every entry), not the bool-typed flag the claim
requires. -/
theorem bool_flag_declared_as_string :
    parseFlagValues [(enabledField, .vBool false)] = [("Enabled", ⟨"enabled", .kBool⟩)] ∧
    bindFlagValues [("Enabled", ⟨"enabled", .kBool⟩)] =
      ([⟨"enabled", .fString, ""⟩], [("Enabled", "enabled")]) ∧
    flagTypeForKind .kBool = some .fBool ∧
    FlagType.fString ≠ FlagType.fBool :=
  ⟨rfl, rfl, rfl, by decide⟩

/-- C2 (amended): for every field carrying a flag tag, the Source
Binder declares a command-line flag named by the tag value that is
always string-typed with an empty default, whatever the field's static
type, and binds that flag to the field name. -/
theorem flag_binding_always_string_typed :
    ∀ (flagValues : List (String × parsedValue)),
      (bindFlagValues flagValues).1 =
        flagValues.map (fun kv => ⟨kv.2.tagValue, .fString, ""⟩) ∧
      (bindFlagValues flagValues).2 =
        flagValues.map (fun kv => (kv.1, kv.2.tagValue)) := by
  intro l
  induction l with
  | nil => exact ⟨rfl, rfl⟩
  | cons kv rest ih =>
    obtain ⟨k, v⟩ := kv
    simp [bindFlagValues, ih.1, ih.2]

/-- Shape of a Load call on a valid struct pointer: the populated
fields and the populate error. -/
theorem Config.Load_struct (c : Config) (w : World) (fields : StructVal) :
    Config.Load c w (.rPtr (some (.rStruct fields))) =
      (.rPtr (some (.rStruct
          (populateFields (loadResolve c.FileName c.FilePaths w fields) fields).1)),
        (populateFields (loadResolve c.FileName c.FilePaths w fields) fields).2) := rfl

/-- C4: assignment of a resolved value proceeds only if the field holds
its type's zero value — a populate step that succeeds on a non-zero
field returns it unchanged, a field pre-set non-zero at any position
survives a whole Load untouched whatever values the sources carry, and
a field holding its type's zero value is overwritten with every
resolved value its kind's parser accepts. -/
theorem zero_value_override_rule :
    (∀ (f : FieldSpec) (v : GoVal) (s : String) (v' : GoVal),
      isZeroOfUnderlyingType v = false →
      populateStructField f v s = .ok v' → v' = v) ∧
    (∀ (c : Config) (w : World) (fields : StructVal) (i : Nat) (f : FieldSpec) (v : GoVal),
      fields.get? i = some (f, v) → isZeroOfUnderlyingType v = false →
      ∃ fields' err, Config.Load c w (.rPtr (some (.rStruct fields))) =
          (.rPtr (some (.rStruct fields')), err) ∧ fields'.get? i = some (f, v)) ∧
    (∀ (f : FieldSpec) (s : String),
      populateStructField f (.vString "") s = .ok (.vString s)) ∧
    (∀ (f : FieldSpec) (s : String) (b : Bool), parseBool s = some b →
      populateStructField f (.vBool false) s = .ok (.vBool b)) ∧
    (∀ (f : FieldSpec) (s : String) (q : ℚ), parseFloat s = some q →
      populateStructField f (.vFloat64 0) s = .ok (.vFloat64 q)) ∧
    (∀ (f : FieldSpec) (s : String) (q : ℚ), parseFloat s = some q →
      populateStructField f (.vFloat32 0) s = .ok (.vFloat32 q)) ∧
    (∀ (f : FieldSpec) (s : String) (n : Int), parseInt64 s = some n →
      populateStructField f (.vInt64 0) s = .ok (.vInt64 n)) ∧
    (∀ (f : FieldSpec) (s : String) (n : Nat), parseUint64 s = some n →
      populateStructField f (.vUint64 0) s = .ok (.vUint64 n)) := by
  refine ⟨populateStructField_ok_nonzero, ?_, ?_, ?_, ?_, ?_, ?_, ?_⟩
  · intro c w fields i f v hget hz
    exact ⟨_, _, rfl, populateFields_preserves_nonzero _ fields i f v hget hz⟩
  · intro f s; rfl
  · intro f s b h; simp [populateStructField, h, isZeroOfUnderlyingType]
  · intro f s q h; simp [populateStructField, h, isZeroOfUnderlyingType]
  · intro f s q h; simp [populateStructField, h, isZeroOfUnderlyingType]
  · intro f s n h
    simp only [populateStructField, h, isZeroOfUnderlyingType]
    norm_num
    exact truncInt_eq_self 64 n (by norm_num) (parseInt64_range s n h).1
      (parseInt64_range s n h).2
  · intro f s n h
    simp only [populateStructField, h, isZeroOfUnderlyingType]
    norm_num
    exact truncUint_eq_self 64 n (parseUint64_range s n h)

theorem zero_value_override_rule_witness :
    populateStructField sampleField (.vBool false) "true" = .ok (.vBool true) ∧
    populateStructField sampleField (.vInt64 0) "42" = .ok (.vInt64 42) ∧
    ∃ fields' err,
      Config.Load defaultLoader ⟨[], [], none⟩
          (.rPtr (some (.rStruct
            [(⟨"Host", true, "", "", "", "localhost"⟩, .vString "testhost")]))) =
        (.rPtr (some (.rStruct fields')), err) ∧
      fields'.get? 0 = some (⟨"Host", true, "", "", "", "localhost"⟩, .vString "testhost") :=
  ⟨zero_value_override_rule.2.2.2.1 sampleField "true" true (by decide),
   zero_value_override_rule.2.2.2.2.2.2.1 sampleField "42" 42 (by decide),
   zero_value_override_rule.2.1 defaultLoader ⟨[], [], none⟩ _ 0 _ _ (by decide) (by decide)⟩

/-- C9: coercion happens before the zero-value check — for every
non-string kind the populate step parses the resolved text before
consulting the field's current value, so it fails on unparseable text
whatever the field holds, and a Load over a field pre-set non-zero
still returns the coercion error of an unparseable lower-precedence
value. -/
theorem coercion_before_zero_check :
    (∀ (f : FieldSpec) (s : String) (b : Bool), parseBool s = none →
      populateStructField f (.vBool b) s = .error (.convErr .toBool s f.name)) ∧
    (∀ (f : FieldSpec) (s : String) (q : ℚ), parseFloat s = none →
      populateStructField f (.vFloat32 q) s = .error (.convErr .toFloat s f.name)) ∧
    (∀ (f : FieldSpec) (s : String) (q : ℚ), parseFloat s = none →
      populateStructField f (.vFloat64 q) s = .error (.convErr .toFloat s f.name)) ∧
    (∀ (f : FieldSpec) (s : String) (n : Int), parseInt64 s = none →
      populateStructField f (.vInt n) s = .error (.convErr .toInt s f.name) ∧
      populateStructField f (.vInt8 n) s = .error (.convErr .toInt s f.name) ∧
      populateStructField f (.vInt32 n) s = .error (.convErr .toInt s f.name) ∧
      populateStructField f (.vInt64 n) s = .error (.convErr .toInt s f.name)) ∧
    (∀ (f : FieldSpec) (s : String) (n : Nat), parseUint64 s = none →
      populateStructField f (.vUint n) s = .error (.convErr .toUint s f.name) ∧
      populateStructField f (.vUint8 n) s = .error (.convErr .toUint s f.name) ∧
      populateStructField f (.vUint32 n) s = .error (.convErr .toUint s f.name) ∧
      populateStructField f (.vUint64 n) s = .error (.convErr .toUint s f.name)) ∧
    (∀ (c : Config) (nm dv : String) (b : Bool), parseBool dv = none → dv ≠ "" →
      Config.Load c ⟨[], [], none⟩
          (.rPtr (some (.rStruct [(⟨nm, true, "", "", "", dv⟩, .vBool b)]))) =
        (.rPtr (some (.rStruct [(⟨nm, true, "", "", "", dv⟩, .vBool b)])),
          some (.convErr .toBool dv nm))) := by
  refine ⟨?_, ?_, ?_, ?_, ?_, ?_⟩
  · intro f s b h; simp [populateStructField, h]
  · intro f s q h; simp [populateStructField, h]
  · intro f s q h; simp [populateStructField, h]
  · intro f s n h; refine ⟨?_, ?_, ?_, ?_⟩ <;> simp [populateStructField, h]
  · intro f s n h; refine ⟨?_, ?_, ?_, ?_⟩ <;> simp [populateStructField, h]
  · intro c nm dv b hp hdv
    simp [Config.Load, canLoad, parseStructConfigValues_eq, populateFields, loadResolve,
      loadViperState, viperGet, viperNew, populateDefaults, bindEnvValues,
      bindFlagValuesState, bindFlagValues, bindConfigFileValues, parseDefaultValues,
      parseEnvValues, parseFlagValues, parseConfigFileValues, parseValuesForTag,
      FieldSpec.tagGet, readInConfig, aliasTarget, populateStructField, List.lookup,
      Option.orElse, hp, hdv]

theorem coercion_before_zero_check_witness :
    populateStructField sampleField (.vBool true) "notabool" =
      .error (.convErr .toBool "notabool" "Sample") ∧
    Config.Load defaultLoader ⟨[], [], none⟩
        (.rPtr (some (.rStruct [(⟨"Flagged", true, "", "", "", "nope"⟩, .vBool true)]))) =
      (.rPtr (some (.rStruct [(⟨"Flagged", true, "", "", "", "nope"⟩, .vBool true)])),
        some (.convErr .toBool "nope" "Flagged")) :=
  ⟨coercion_before_zero_check.1 sampleField "notabool" true (by decide),
   coercion_before_zero_check.2.2.2.2.2 defaultLoader "Flagged" "nope" true
     (by decide) (by decide)⟩

/-- C5: a Load over a valid struct pointer that returns an error
returns the coercion error of the first failing field: that field's
resolved text fails its populate step with exactly the returned error,
and the failing field together with every later field in declaration
order keeps its pre-call value (earlier fields may already have been
assigned). -/
theorem coercion_failure_aborts_load :
    ∀ (c : Config) (w : World) (fields fields' : StructVal) (e : CfgError),
      Config.Load c w (.rPtr (some (.rStruct fields))) =
        (.rPtr (some (.rStruct fields')), some e) →
      ∃ i f v s, fields.get? i = some (f, v) ∧
        loadResolve c.FileName c.FilePaths w fields f.name = some s ∧
        populateStructField f v s = .error e ∧
        (∃ tgt, e = .convErr tgt s f.name) ∧
        ∀ j, i ≤ j → fields'.get? j = fields.get? j := by
  intro c w fields fields' e h
  rw [Config.Load_struct] at h
  rcases hpf : populateFields (loadResolve c.FileName c.FilePaths w fields) fields
    with ⟨a, b⟩
  rw [hpf] at h
  simp only [Prod.mk.injEq, RVal.rPtr.injEq, Option.some.injEq, RElem.rStruct.injEq] at h
  obtain ⟨ha, hb⟩ := h
  rw [ha, hb] at hpf
  obtain ⟨i, f, v, s, hg, hres, herr, hkeep⟩ :=
    populateFields_error_spec _ _ _ _ hpf
  exact ⟨i, f, v, s, hg, hres, herr,
    populateStructField_error_shape f v s e herr, hkeep⟩

def wEmptyW : World := ⟨[], [], none⟩

def fieldA : FieldSpec := ⟨"Alpha", true, "", "", "", "a"⟩

def fieldB : FieldSpec := ⟨"Beta", true, "", "", "", "zz"⟩

def fieldC : FieldSpec := ⟨"Gamma", true, "", "", "", "7"⟩

theorem coercion_failure_aborts_load_witness :
    ∃ i f v s,
      ([(fieldA, .vString ""), (fieldB, .vBool false), (fieldC, .vInt 0)] : StructVal).get? i =
        some (f, v) ∧
      loadResolve defaultLoader.FileName defaultLoader.FilePaths wEmptyW
        [(fieldA, .vString ""), (fieldB, .vBool false), (fieldC, .vInt 0)] f.name = some s ∧
      populateStructField f v s = .error (.convErr .toBool "zz" "Beta") ∧
      (∃ tgt, (CfgError.convErr .toBool "zz" "Beta") = .convErr tgt s f.name) ∧
      ∀ j, i ≤ j →
        ([(fieldA, .vString "a"), (fieldB, .vBool false), (fieldC, .vInt 0)] : StructVal).get? j =
          ([(fieldA, .vString ""), (fieldB, .vBool false), (fieldC, .vInt 0)] : StructVal).get? j :=
  coercion_failure_aborts_load defaultLoader wEmptyW _ _ _ rfl

/-- C8: absence of a configuration file is never an error — the
read-in-config step reports the missing-file condition, the loader
discards it, and the whole Load behaves exactly as if the file provider
had no values at all. -/
theorem missing_config_file_not_fatal :
    ∀ (c : Config) (w : World) (fields : StructVal), w.configFile = none →
      (readInConfig (loadViperState c.FileName c.FilePaths fields) w).2 =
        some .configFileNotFound ∧
      Config.Load c w (.rPtr (some (.rStruct fields))) =
        Config.Load c { w with configFile := some [] } (.rPtr (some (.rStruct fields))) := by
  intro c w fields hw
  constructor
  · simp [readInConfig, hw]
  · rw [Config.Load_struct, Config.Load_struct]
    have hpt : ∀ k, loadResolve c.FileName c.FilePaths w fields k =
        loadResolve c.FileName c.FilePaths { w with configFile := some [] } fields k := by
      intro k
      simp [loadResolve, viperGet, readInConfig, hw, aliasTarget]
    rw [populateFields_congr _ _ hpt]

theorem missing_config_file_not_fatal_witness :
    (readInConfig (loadViperState "config" ["."] [(fieldA, .vString "")]) wEmptyW).2 =
      some .configFileNotFound ∧
    Config.Load defaultLoader wEmptyW (.rPtr (some (.rStruct [(fieldA, .vString "")]))) =
      Config.Load defaultLoader { wEmptyW with configFile := some [] }
        (.rPtr (some (.rStruct [(fieldA, .vString "")]))) :=
  missing_config_file_not_fatal defaultLoader wEmptyW [(fieldA, .vString "")] rfl

/-- C6 counterexample: an int8 field holding its zero value with
resolved text 200 — the text parses (the 64-bit base-10 parse yields
200) yet the assigned typed value is the truncated -56, not the exact
value the claim requires. -/
theorem int8_truncation_counterexample :
    parseInt64 "200" = some 200 ∧
    populateStructField sampleField (.vInt8 0) "200" = .ok (.vInt8 (-56)) ∧
    (-56 : Int) ≠ 200 :=
  ⟨by decide, rfl, by decide⟩

/-- C6 (amended): type coercion as the populator implements it —
string fields are assigned the resolved text directly and never fail;
bool fields take the strict boolean parse; float fields the decimal
parse; the signed-integer kinds int, int8, int32 and int64 are parsed
as base-10 64-bit integers and assigned with two's-complement
truncation to the field's width (int16 has no case and is skipped
untouched); the unsigned kinds uint, uint8, uint32 and uint64 likewise
with the sign-free 64-bit parse (uint16 skipped); the non-string round
trip is exact precisely when the parsed value fits the field's width;
and in every handled non-string kind a value that does not parse yields
a coercion error. -/
theorem type_coercion_per_kind :
    (∀ (f : FieldSpec) (s cur : String), populateStructField f (.vString cur) s =
      .ok (if cur = "" then .vString s else .vString cur)) ∧
    (∀ (f : FieldSpec) (s : String) (b bv : Bool), parseBool s = some bv →
      populateStructField f (.vBool b) s =
        .ok (if b = false then .vBool bv else .vBool b)) ∧
    (∀ (f : FieldSpec) (s : String) (q fv : ℚ), parseFloat s = some fv →
      populateStructField f (.vFloat64 q) s =
        .ok (if q = 0 then .vFloat64 fv else .vFloat64 q)) ∧
    (∀ (f : FieldSpec) (s : String) (q fv : ℚ), parseFloat s = some fv →
      populateStructField f (.vFloat32 q) s =
        .ok (if q = 0 then .vFloat32 fv else .vFloat32 q)) ∧
    (∀ (f : FieldSpec) (s : String) (n iv : Int), parseInt64 s = some iv →
      populateStructField f (.vInt n) s =
        .ok (if n = 0 then .vInt (truncInt 64 iv) else .vInt n) ∧
      populateStructField f (.vInt8 n) s =
        .ok (if n = 0 then .vInt8 (truncInt 8 iv) else .vInt8 n) ∧
      populateStructField f (.vInt32 n) s =
        .ok (if n = 0 then .vInt32 (truncInt 32 iv) else .vInt32 n) ∧
      populateStructField f (.vInt64 n) s =
        .ok (if n = 0 then .vInt64 (truncInt 64 iv) else .vInt64 n)) ∧
    (∀ (f : FieldSpec) (s : String) (n : Int),
      populateStructField f (.vInt16 n) s = .ok (.vInt16 n)) ∧
    (∀ (f : FieldSpec) (s : String) (n uv : Nat), parseUint64 s = some uv →
      populateStructField f (.vUint n) s =
        .ok (if n = 0 then .vUint (truncUint 64 uv) else .vUint n) ∧
      populateStructField f (.vUint8 n) s =
        .ok (if n = 0 then .vUint8 (truncUint 8 uv) else .vUint8 n) ∧
      populateStructField f (.vUint32 n) s =
        .ok (if n = 0 then .vUint32 (truncUint 32 uv) else .vUint32 n) ∧
      populateStructField f (.vUint64 n) s =
        .ok (if n = 0 then .vUint64 (truncUint 64 uv) else .vUint64 n)) ∧
    (∀ (f : FieldSpec) (s : String) (n : Nat),
      populateStructField f (.vUint16 n) s = .ok (.vUint16 n)) ∧
    (∀ (f : FieldSpec) (s : String) (iv : Int), parseInt64 s = some iv →
      -(2 ^ 7) ≤ iv → iv < 2 ^ 7 →
      populateStructField f (.vInt8 0) s = .ok (.vInt8 iv)) ∧
    (∀ (f : FieldSpec) (s : String) (uv : Nat), parseUint64 s = some uv → uv < 2 ^ 8 →
      populateStructField f (.vUint8 0) s = .ok (.vUint8 uv)) ∧
    (∀ (f : FieldSpec) (s : String) (b : Bool), parseBool s = none →
      populateStructField f (.vBool b) s = .error (.convErr .toBool s f.name)) ∧
    (∀ (f : FieldSpec) (s : String) (q : ℚ), parseFloat s = none →
      populateStructField f (.vFloat64 q) s = .error (.convErr .toFloat s f.name)) ∧
    (∀ (f : FieldSpec) (s : String) (n : Int), parseInt64 s = none →
      populateStructField f (.vInt64 n) s = .error (.convErr .toInt s f.name)) ∧
    (∀ (f : FieldSpec) (s : String) (n : Nat), parseUint64 s = none →
      populateStructField f (.vUint64 n) s = .error (.convErr .toUint s f.name)) := by
  refine ⟨?_, ?_, ?_, ?_, ?_, ?_, ?_, ?_, ?_, ?_, ?_, ?_, ?_, ?_⟩
  · intro f s cur
    simp [populateStructField, isZeroOfUnderlyingType]
  · intro f s b bv h
    simp [populateStructField, h, isZeroOfUnderlyingType]
  · intro f s q fv h
    simp [populateStructField, h, isZeroOfUnderlyingType]
  · intro f s q fv h
    simp [populateStructField, h, isZeroOfUnderlyingType]
  · intro f s n iv h
    refine ⟨?_, ?_, ?_, ?_⟩ <;> simp [populateStructField, h, isZeroOfUnderlyingType]
  · intro f s n; rfl
  · intro f s n uv h
    refine ⟨?_, ?_, ?_, ?_⟩ <;> simp [populateStructField, h, isZeroOfUnderlyingType]
  · intro f s n; rfl
  · intro f s iv h h1 h2
    simp only [populateStructField, h, isZeroOfUnderlyingType]
    norm_num
    exact truncInt_eq_self 8 iv (by norm_num) h1 h2
  · intro f s uv h h1
    simp only [populateStructField, h, isZeroOfUnderlyingType]
    norm_num
    exact truncUint_eq_self 8 uv h1
  · intro f s b h; simp [populateStructField, h]
  · intro f s q h; simp [populateStructField, h]
  · intro f s n h; simp [populateStructField, h]
  · intro f s n h; simp [populateStructField, h]

theorem type_coercion_per_kind_witness :
    populateStructField sampleField (.vBool false) "1" = .ok (.vBool true) ∧
    populateStructField sampleField (.vInt8 0) "5" = .ok (.vInt8 5) ∧
    populateStructField sampleField (.vUint8 0) "300" = .ok (.vUint8 44) ∧
    populateStructField sampleField (.vFloat64 0) "1.5" =
      .ok (.vFloat64 (decimalValue false 15 1 0)) ∧
    populateStructField sampleField (.vInt64 3) "bad" =
      .error (.convErr .toInt "bad" "Sample") := by
  obtain ⟨hstr, hbool, hf64, hf32, hint, hi16, huint, hu16, hi8x, hu8x, hbn, hfn, hin, hun⟩ :=
    type_coercion_per_kind
  refine ⟨hbool sampleField "1" false true (by decide), ?_, ?_, ?_, ?_⟩
  · exact hi8x sampleField "5" 5 (by decide) (by decide) (by decide)
  · exact (huint sampleField "300" 0 300 (by decide)).2.1
  · exact hf64 sampleField "1.5" 0 (decimalValue false 15 1 0) rfl
  · exact hin sampleField "bad" 3 (by decide)

/-- C1: the precedence law — for a field annotated with all source
kinds and values present simultaneously in the override tier (the
field pre-set non-zero), the flags, the environment, the file and the
default, the field's final value after Load equals the override value;
removing the override yields the flag value; removing the flag yields
the environment value; removing the environment yields the file value;
removing the file yields the default. -/
theorem precedence_law :
    ∀ (c : Config) (nm en gn fk dv ov fv ev lv : String),
      en ≠ "" → gn ≠ "" → fk ≠ "" → dv ≠ "" → ov ≠ "" →
      (Config.Load c ⟨[(en, ev)], [(gn, fv)], some [(fk, lv)]⟩
          (.rPtr (some (.rStruct [(⟨nm, true, en, gn, fk, dv⟩, .vString ov)]))) =
        (.rPtr (some (.rStruct [(⟨nm, true, en, gn, fk, dv⟩, .vString ov)])), none)) ∧
      (Config.Load c ⟨[(en, ev)], [(gn, fv)], some [(fk, lv)]⟩
          (.rPtr (some (.rStruct [(⟨nm, true, en, gn, fk, dv⟩, .vString "")]))) =
        (.rPtr (some (.rStruct [(⟨nm, true, en, gn, fk, dv⟩, .vString fv)])), none)) ∧
      (Config.Load c ⟨[(en, ev)], [], some [(fk, lv)]⟩
          (.rPtr (some (.rStruct [(⟨nm, true, en, gn, fk, dv⟩, .vString "")]))) =
        (.rPtr (some (.rStruct [(⟨nm, true, en, gn, fk, dv⟩, .vString ev)])), none)) ∧
      (Config.Load c ⟨[], [], some [(fk, lv)]⟩
          (.rPtr (some (.rStruct [(⟨nm, true, en, gn, fk, dv⟩, .vString "")]))) =
        (.rPtr (some (.rStruct [(⟨nm, true, en, gn, fk, dv⟩, .vString lv)])), none)) ∧
      (Config.Load c ⟨[], [], none⟩
          (.rPtr (some (.rStruct [(⟨nm, true, en, gn, fk, dv⟩, .vString "")]))) =
        (.rPtr (some (.rStruct [(⟨nm, true, en, gn, fk, dv⟩, .vString dv)])), none)) := by
  intro c nm en gn fk dv ov fv ev lv hen hgn hfk hdv hov
  refine ⟨?_, ?_, ?_, ?_, ?_⟩ <;>
    simp [Config.Load, canLoad, parseStructConfigValues_eq, populateFields, loadResolve,
      loadViperState, viperGet, viperNew, populateDefaults, bindEnvValues,
      bindFlagValuesState, bindFlagValues, bindConfigFileValues, parseDefaultValues,
      parseEnvValues, parseFlagValues, parseConfigFileValues, parseValuesForTag,
      FieldSpec.tagGet, readInConfig, aliasTarget, populateStructField,
      isZeroOfUnderlyingType, List.lookup, Option.orElse, hen, hgn, hfk, hdv, hov]

theorem precedence_law_witness :
    (Config.Load defaultLoader ⟨[("APP_X", "evv")], [("xf", "fvv")], some [("xk", "lvv")]⟩
        (.rPtr (some (.rStruct [(⟨"X", true, "APP_X", "xf", "xk", "dvv"⟩, .vString "ovv")]))) =
      (.rPtr (some (.rStruct [(⟨"X", true, "APP_X", "xf", "xk", "dvv"⟩, .vString "ovv")])),
        none)) ∧
    (Config.Load defaultLoader ⟨[("APP_X", "evv")], [("xf", "fvv")], some [("xk", "lvv")]⟩
        (.rPtr (some (.rStruct [(⟨"X", true, "APP_X", "xf", "xk", "dvv"⟩, .vString "")]))) =
      (.rPtr (some (.rStruct [(⟨"X", true, "APP_X", "xf", "xk", "dvv"⟩, .vString "fvv")])),
        none)) ∧
    (Config.Load defaultLoader ⟨[("APP_X", "evv")], [], some [("xk", "lvv")]⟩
        (.rPtr (some (.rStruct [(⟨"X", true, "APP_X", "xf", "xk", "dvv"⟩, .vString "")]))) =
      (.rPtr (some (.rStruct [(⟨"X", true, "APP_X", "xf", "xk", "dvv"⟩, .vString "evv")])),
        none)) ∧
    (Config.Load defaultLoader ⟨[], [], some [("xk", "lvv")]⟩
        (.rPtr (some (.rStruct [(⟨"X", true, "APP_X", "xf", "xk", "dvv"⟩, .vString "")]))) =
      (.rPtr (some (.rStruct [(⟨"X", true, "APP_X", "xf", "xk", "dvv"⟩, .vString "lvv")])),
        none)) ∧
    (Config.Load defaultLoader ⟨[], [], none⟩
        (.rPtr (some (.rStruct [(⟨"X", true, "APP_X", "xf", "xk", "dvv"⟩, .vString "")]))) =
      (.rPtr (some (.rStruct [(⟨"X", true, "APP_X", "xf", "xk", "dvv"⟩, .vString "dvv")])),
        none)) :=
  precedence_law defaultLoader "X" "APP_X" "xf" "xk" "dvv" "ovv" "fvv" "evv" "lvv"
    (by decide) (by decide) (by decide) (by decide) (by decide)
